import Mathlib

set_option maxRecDepth 8192

/-!
Verification of the AssistQR accident-report pipeline.

This file gives a shallow embedding, in Lean 4, of the queueing / sync /
notification logic of the AssistQR repository, and proves (or refutes)
the frozen specification claims about it.

JavaScript strings are modelled as lists of characters (Str), JavaScript
numbers appearing in the parsing logic as rationals (the claims only
exercise exactly-representable decimal values), and the stateful pieces
(the client-side IndexedDB queue, the sync-cycle guards) as explicit
state-passing functions.
-/

namespace AssistQR

/-- Model of a JavaScript string: a list of characters. -/
abbrev Str := List Char

/-- Injection of a Lean string literal into the model. -/
def str (x : String) : Str := x.data

/-- Characters treated as whitespace by the JavaScript regular expression
class used in the webhook parser (message.trim().split on whitespace runs);
the claims only exercise the ordinary space character. -/
def isJsWs (c : Char) : Bool :=
  c = ' ' || c = '\t' || c = '\n' || c = '\r'

/-- Model of String.prototype.trim: drop whitespace from both ends. -/
def jsTrim (s : Str) : Str :=
  ((s.dropWhile isJsWs).reverse.dropWhile isJsWs).reverse

/-- Auxiliary splitter: split a string on runs of whitespace, dropping
empty pieces, with an accumulator for the token being read. -/
def wsSplitAux : Str → Str → List Str
  | [], acc => if acc = [] then [] else [acc.reverse]
  | c :: cs, acc =>
    if isJsWs c then
      if acc = [] then wsSplitAux cs [] else acc.reverse :: wsSplitAux cs []
    else wsSplitAux cs (c :: acc)

/-- Split on runs of whitespace, dropping empty pieces. -/
def wsSplit (s : Str) : List Str := wsSplitAux s []

/-- Model of messageBody.trim().split of the webhook handler: on an
empty (or all-whitespace) input JavaScript yields the one-element array
holding the empty string; otherwise the non-empty whitespace-separated
tokens. -/
def jsTokens (s : Str) : List Str :=
  let t := jsTrim s
  if t = [] then [[]] else wsSplit t

/-- Decimal digit test. -/
def isDigitCh (c : Char) : Bool := '0' ≤ c && c ≤ '9'

/-- Numeric value of a string of decimal digits. -/
def digitsToNat (ds : Str) : Nat :=
  ds.foldl (fun a c => 10 * a + (c.toNat - '0'.toNat)) 0

/-- Exponent part of a JavaScript float literal: an optional e/E followed
by an optional sign and digits; an ill-formed exponent contributes 0
(parseFloat backtracks to the longest valid numeric prefix). -/
def expVal (s : Str) : Int :=
  match s with
  | 'e' :: rest | 'E' :: rest =>
    let (sgn, rest') : Int × Str :=
      match rest with
      | '-' :: t => (-1, t)
      | '+' :: t => (1, t)
      | t => (1, t)
    let ds := rest'.takeWhile isDigitCh
    if ds = [] then 0 else sgn * (digitsToNat ds : Int)
  | _ => 0

/-- Model of the JavaScript builtin parseFloat on the finite-decimal
fragment (optional sign, digits, optional fraction, optional exponent,
longest valid prefix; none models NaN).  The special Infinity spellings,
which no caller in the repository feeds it, are not modelled. -/
def jsParseFloat (s : Str) : Option Rat :=
  let s0 := s.dropWhile isJsWs
  let (sgn, s1) : Int × Str :=
    match s0 with
    | '-' :: t => (-1, t)
    | '+' :: t => (1, t)
    | t => (1, t)
  let ip := s1.takeWhile isDigitCh
  let s2 := s1.drop ip.length
  let (fp, s3) : Str × Str :=
    match s2 with
    | '.' :: t => (t.takeWhile isDigitCh, t.dropWhile isDigitCh)
    | t => ([], t)
  if ip = [] && fp = [] then none
  else
    let mantissa : Int := sgn * ((digitsToNat ip * 10 ^ fp.length + digitsToNat fp : Nat) : Int)
    let e10 : Int := expVal s3 - (fp.length : Int)
    some (if 0 ≤ e10 then ((mantissa * 10 ^ e10.toNat : Int) : Rat)
          else mkRat mantissa (10 ^ (-e10).toNat))

/-- Model of Array.prototype.indexOf with a start position: the first
index at or after the start holding the given element (none models -1). -/
def jsIndexOfFrom (l : List Str) (x : Str) (start : Nat) : Option Nat :=
  match (l.drop start).indexOf? x with
  | some i => some (start + i)
  | none => none

/-- Truthiness of parts[i] for an array of tokens: the element exists and
is a non-empty string. -/
def truthyAt (parts : List Str) (i : Nat) : Bool :=
  match parts.get? i with
  | some t => t ≠ []
  | none => false

/-- Join of parts.slice(i) with single spaces. -/
def joinFrom (parts : List Str) (i : Nat) : Str :=
  List.intercalate (str " ") (parts.drop i)

/-- Join of parts.slice(i, j) with single spaces. -/
def joinSlice (parts : List Str) (i j : Nat) : Str :=
  List.intercalate (str " ") ((parts.drop i).take (j - i))

/-- Outcome of the SMS text-command parser of POST /sms-webhook. -/
inductive SmsParse where
  | invalidFormat
  | missingToken
  | report (qrToken : Str) (lat lng : Option Rat)
      (manualLocation helperNote : Option Str)
deriving DecidableEq

/-- Embedding of the SMS body parser of POST /sms-webhook
(src/routes/accidents.js lines 445-525): tokenize the body, require the
literal first token REPORT, take the second token as the vehicle token,
then try the coordinate branch (tokens 3 and 4 both parse as numbers)
and otherwise scan for the LOCATION / NOTE keywords. -/
def parseSmsBody (body : Str) : SmsParse :=
  let parts := jsTokens body
  if parts.get? 0 ≠ some (str "REPORT") then .invalidFormat
  else if ¬ truthyAt parts 1 then .missingToken
  else
    let qrToken := (parts.get? 1).getD []
    if 4 ≤ parts.length &&
        (jsParseFloat ((parts.get? 2).getD [])).isSome &&
        (jsParseFloat ((parts.get? 3).getD [])).isSome then
      let lat := jsParseFloat ((parts.get? 2).getD [])
      let lng := jsParseFloat ((parts.get? 3).getD [])
      let helperNote :=
        if 4 < parts.length then
          match jsIndexOfFrom parts (str "NOTE") 0 with
          | some ni => if truthyAt parts (ni + 1) then some (joinFrom parts (ni + 1)) else none
          | none => none
        else none
      .report qrToken lat lng none helperNote
    else
      match jsIndexOfFrom parts (str "LOCATION") 0 with
      | some li =>
        if truthyAt parts (li + 1) then
          match jsIndexOfFrom parts (str "NOTE") li with
          | some ni =>
            if truthyAt parts (ni + 1) then
              .report qrToken none none (some (joinSlice parts (li + 1) ni))
                (some (joinFrom parts (ni + 1)))
            else .report qrToken none none (some (joinFrom parts (li + 1))) none
          | none => .report qrToken none none (some (joinFrom parts (li + 1))) none
        else
          match jsIndexOfFrom parts (str "NOTE") 0 with
          | some ni =>
            if truthyAt parts (ni + 1) then
              .report qrToken none none none (some (joinFrom parts (ni + 1)))
            else .report qrToken none none none none
          | none => .report qrToken none none none none
      | none =>
        match jsIndexOfFrom parts (str "NOTE") 0 with
        | some ni =>
          if truthyAt parts (ni + 1) then
            .report qrToken none none none (some (joinFrom parts (ni + 1)))
          else .report qrToken none none none none
        | none => .report qrToken none none none none

/-! ### Claims C4 and C5: the SMS text-command parser -/

/-- C4: the SMS text-command parser maps the body
REPORT tok123 12.97 77.59 NOTE car smoking to lat=12.97, lng=77.59,
helperNote = car smoking with no manual location; maps
REPORT tok123 LOCATION near gate 2 NOTE leaking fluid to
manualLocation = near gate 2, helperNote = leaking fluid with no
coordinates; and rejects the body HELLO as invalid format (the first
token must equal REPORT, case-sensitively, so a lower-case report is
also rejected). -/
theorem c4_sms_parser_examples :
    parseSmsBody (str "REPORT tok123 12.97 77.59 NOTE car smoking") =
      .report (str "tok123") (some (mkRat 1297 100)) (some (mkRat 7759 100)) none
        (some (str "car smoking")) ∧
    parseSmsBody (str "REPORT tok123 LOCATION near gate 2 NOTE leaking fluid") =
      .report (str "tok123") none none (some (str "near gate 2"))
        (some (str "leaking fluid")) ∧
    parseSmsBody (str "HELLO") = .invalidFormat ∧
    parseSmsBody (str "report tok123 12.97 77.59") = .invalidFormat :=
  ⟨rfl, rfl, rfl, rfl⟩

/-- C5 counterexample: the claim says a numeric but out-of-range pair in
tokens 3 and 4 is not recorded as lat/lng and falls through to keyword
scanning.  On the body REPORT tok123 999 999 the parser records
lat = lng = 999 even though 999 is far outside both valid ranges: the
coordinate branch tests only that parseFloat does not return NaN and
performs no range check. -/
theorem c5_counterexample :
    parseSmsBody (str "REPORT tok123 999 999") =
      .report (str "tok123") (some 999) (some 999) none none ∧
    ¬ ((999 : Rat) ≤ 90) ∧ ¬ ((999 : Rat) ≤ 180) :=
  ⟨rfl, by norm_num, by norm_num⟩

/-- C5 amended: in the SMS text-command parser, tokens 3 and 4 are
treated as coordinates whenever both parse as numbers, with no range
validation at all: whatever rationals they parse to are recorded as
lat/lng, and only a parse failure makes the parser fall through to the
LOCATION/NOTE keyword scanning. -/
theorem c5_amended_coordinates (body : Str) (a b : Rat)
    (h0 : (jsTokens body)[0]? = some (str "REPORT"))
    (h1 : truthyAt (jsTokens body) 1 = true)
    (h4 : 4 ≤ (jsTokens body).length)
    (ha : jsParseFloat ((jsTokens body)[2]?.getD []) = some a)
    (hb : jsParseFloat ((jsTokens body)[3]?.getD []) = some b) :
    ∃ note, parseSmsBody body =
      SmsParse.report ((jsTokens body)[1]?.getD []) (some a) (some b) none note := by
  unfold parseSmsBody
  rw [if_neg (by simp [h0]), if_neg (by simp [h1]),
    if_pos (by simp [List.get?_eq_getElem?, h4, ha, hb])]
  simp only [List.get?_eq_getElem?, ha, hb]
  exact ⟨_, rfl⟩

/-- Witness for the amended C5 theorem at the concrete out-of-range body
REPORT tok123 999 999. -/
theorem c5_amended_coordinates_witness :
    ∃ note, parseSmsBody (str "REPORT tok123 999 999") =
      SmsParse.report (str "tok123") (some 999) (some 999) none note :=
  c5_amended_coordinates (str "REPORT tok123 999 999") 999 999 rfl rfl (by decide) rfl rfl

/-! ### Claim C7: the email provider waterfall -/

/-- Providers of the email chain, in the order of the waterfall of
sendAccidentAlertEmail (src/services/s3.js, email half). -/
inductive EmailProvider where
  | brevoApi | brevoSmtp | mailgunApi | resendApi | sendgridApi | smtpRelay
deriving DecidableEq

/-- Fixed priority order of the waterfall. -/
def providerChain : List EmailProvider :=
  [.brevoApi, .brevoSmtp, .mailgunApi, .resendApi, .sendgridApi, .smtpRelay]

/-- Which email services are configured (the emailConfig object computed
from environment variables; the transporter objects exist exactly when the
corresponding flag is set). -/
structure EmailConfig where
  brevoApi : Bool
  brevoSmtp : Bool
  mailgun : Bool
  resend : Bool
  sendgrid : Bool
  smtp : Bool
deriving DecidableEq

/-- Configuration flag of one provider. -/
def EmailConfig.configured (cfg : EmailConfig) : EmailProvider → Bool
  | .brevoApi => cfg.brevoApi
  | .brevoSmtp => cfg.brevoSmtp
  | .mailgunApi => cfg.mailgun
  | .resendApi => cfg.resend
  | .sendgridApi => cfg.sendgrid
  | .smtpRelay => cfg.smtp

/-- Model of Object.values(emailConfig).some: at least one service is
configured. -/
def EmailConfig.anyConfigured (cfg : EmailConfig) : Bool :=
  cfg.brevoApi || cfg.brevoSmtp || cfg.mailgun || cfg.resend || cfg.sendgrid || cfg.smtp

/-- Result of one email dispatch: whether some provider confirmed
acceptance, which one, and the providers actually attempted in order. -/
structure EmailAttemptResult where
  success : Bool
  provider : Option EmailProvider
  attempted : List EmailProvider
deriving DecidableEq

/-- Waterfall over a list of providers: each configured provider is
attempted inside its own try/catch; the first confirmed send returns
immediately, a failure falls through to the next, an unconfigured
provider is skipped.  The oracle send tells whether a given provider
confirms acceptance (false models a thrown/failed send, which the
corresponding catch swallows). -/
def emailWaterfall (cfg : EmailConfig) (send : EmailProvider → Bool) :
    List EmailProvider → EmailAttemptResult
  | [] => { success := false, provider := none, attempted := [] }
  | p :: rest =>
    if cfg.configured p then
      if send p then { success := true, provider := some p, attempted := [p] }
      else
        let r := emailWaterfall cfg send rest
        { r with attempted := p :: r.attempted }
    else emailWaterfall cfg send rest

/-- Embedding of sendAccidentAlertEmail (src/services/s3.js, email half,
lines 558-814): if no service at all is configured a failure result is
returned up front; otherwise the waterfall runs over the fixed provider
chain; when every attempted provider fails the all-services-failed
failure result is returned.  The function always returns a result value
and never throws. -/
def sendAccidentAlertEmail (cfg : EmailConfig) (send : EmailProvider → Bool) :
    EmailAttemptResult :=
  if ¬ cfg.anyConfigured then { success := false, provider := none, attempted := [] }
  else emailWaterfall cfg send providerChain

/-- Configured sub-chain, in priority order. -/
def configuredChain (cfg : EmailConfig) : List EmailProvider :=
  providerChain.filter cfg.configured

/-- Attempts made by a first-success waterfall over a provider list, per
the specification: every provider up to and including the first
successful one. -/
def attemptsUpToSuccess (send : EmailProvider → Bool) :
    List EmailProvider → List EmailProvider
  | [] => []
  | p :: rest => if send p then [p] else p :: attemptsUpToSuccess send rest

/-- Auxiliary lemma: success flag of the waterfall over any provider list. -/
theorem emailWaterfall_success (cfg : EmailConfig) (send : EmailProvider → Bool) :
    ∀ l : List EmailProvider,
      (emailWaterfall cfg send l).success = (l.filter cfg.configured).any send := by
  intro l
  induction l with
  | nil => rfl
  | cons p rest ih =>
    by_cases hc : cfg.configured p = true
    · by_cases hs : send p = true
      · simp [emailWaterfall, hc, hs, List.filter_cons]
      · simp only [Bool.not_eq_true] at hs
        simp [emailWaterfall, hc, hs, List.filter_cons, ih]
    · simp only [Bool.not_eq_true] at hc
      simp [emailWaterfall, hc, List.filter_cons, ih]

/-- Auxiliary lemma: winning provider of the waterfall. -/
theorem emailWaterfall_provider (cfg : EmailConfig) (send : EmailProvider → Bool) :
    ∀ l : List EmailProvider,
      (emailWaterfall cfg send l).provider = (l.filter cfg.configured).find? send := by
  intro l
  induction l with
  | nil => rfl
  | cons p rest ih =>
    by_cases hc : cfg.configured p = true
    · by_cases hs : send p = true
      · simp [emailWaterfall, hc, hs, List.filter_cons, List.find?]
      · simp only [Bool.not_eq_true] at hs
        simp [emailWaterfall, hc, hs, List.filter_cons, List.find?, ih]
    · simp only [Bool.not_eq_true] at hc
      simp [emailWaterfall, hc, List.filter_cons, ih]

/-- Auxiliary lemma: attempted providers of the waterfall. -/
theorem emailWaterfall_attempted (cfg : EmailConfig) (send : EmailProvider → Bool) :
    ∀ l : List EmailProvider,
      (emailWaterfall cfg send l).attempted =
        attemptsUpToSuccess send (l.filter cfg.configured) := by
  intro l
  induction l with
  | nil => rfl
  | cons p rest ih =>
    by_cases hc : cfg.configured p = true
    · by_cases hs : send p = true
      · simp [emailWaterfall, hc, hs, List.filter_cons, attemptsUpToSuccess]
      · simp only [Bool.not_eq_true] at hs
        simp [emailWaterfall, hc, hs, List.filter_cons, attemptsUpToSuccess, ih]
    · simp only [Bool.not_eq_true] at hc
      simp [emailWaterfall, hc, List.filter_cons, ih]

/-- Auxiliary lemma: with no service configured the configured sub-chain
is empty. -/
theorem configuredChain_nil_of_none (cfg : EmailConfig)
    (h : cfg.anyConfigured = false) : configuredChain cfg = [] := by
  simp only [EmailConfig.anyConfigured, Bool.or_eq_false_iff] at h
  obtain ⟨⟨⟨⟨⟨h1, h2⟩, h3⟩, h4⟩, h5⟩, h6⟩ := h
  simp [configuredChain, providerChain, List.filter, EmailConfig.configured,
    h1, h2, h3, h4, h5, h6]

/-- C7: the email send attempts configured providers in the fixed
priority order Brevo API, Brevo SMTP, Mailgun API, Resend API,
SendGrid API, SMTP relay (the order of providerChain); it succeeds with
exactly the first configured provider that confirms acceptance and
attempts no provider after it; and when every configured provider fails,
or none is configured, it returns a failure result instead of raising
(the embedding is a total function into EmailAttemptResult; per-provider
failures are swallowed by the per-provider catch blocks). -/
theorem c7_email_waterfall (cfg : EmailConfig) (send : EmailProvider → Bool) :
    (sendAccidentAlertEmail cfg send).success = (configuredChain cfg).any send ∧
    (sendAccidentAlertEmail cfg send).provider = (configuredChain cfg).find? send ∧
    (sendAccidentAlertEmail cfg send).attempted =
      attemptsUpToSuccess send (configuredChain cfg) := by
  unfold sendAccidentAlertEmail
  by_cases h : cfg.anyConfigured = true
  · rw [if_neg (by simp [h])]
    exact ⟨emailWaterfall_success cfg send providerChain,
      emailWaterfall_provider cfg send providerChain,
      emailWaterfall_attempted cfg send providerChain⟩
  · simp only [Bool.not_eq_true] at h
    rw [if_pos (by simp [h]), configuredChain_nil_of_none cfg h]
    exact ⟨rfl, rfl, rfl⟩

/-! ### Endpoint handlers: claims C1 and C6 -/

/-- Emergency contact of a vehicle. -/
structure EmergencyContact where
  name : Str
  email : Str
  phoneNumber : Str
deriving DecidableEq

/-- Vehicle row as resolved by the qrToken lookup (model and color are
nullable columns). -/
structure VehicleRec where
  id : Nat
  licensePlate : Str
  model : Option Str
  color : Option Str
  contacts : List EmergencyContact
deriving DecidableEq

/-- Accident report row created by prisma.accidentReport.create. -/
structure SubmittedReport where
  vehicleId : Nat
  lat : Option Rat
  lng : Option Rat
  manualLocation : Option Str
  helperNote : Option Str
deriving DecidableEq

/-- Observable outcome of one of the two form endpoints: what was
persisted, whether the HTTP response was a success response, and the
notificationCount field of the response body when the response carries
one. -/
structure EndpointOutcome where
  persisted : Option SubmittedReport
  httpOk : Bool
  notificationCount : Option Nat
deriving DecidableEq

/-- Embedding of the core of POST /report (src/routes/accidents.js lines
151-203), from the point where the qrToken has resolved to a vehicle and
validation has passed: the report is persisted, one email per emergency
contact is dispatched (each rejection caught and turned into a failure
result), the settled results are awaited but discarded, and the response
reports notificationCount = vehicle.emergencyContacts.length. -/
def handleReport (v : VehicleRec) (lat lng : Option Rat)
    (manualLocation helperNote : Option Str)
    (emailSend : EmergencyContact → Bool) : EndpointOutcome :=
  let report : SubmittedReport :=
    { vehicleId := v.id, lat := lat, lng := lng,
      manualLocation := manualLocation, helperNote := helperNote }
  let _results := v.contacts.map emailSend
  { persisted := some report, httpOk := true,
    notificationCount := some v.contacts.length }

/-- Embedding of the core of POST /report-offline (src/routes/accidents.js
lines 265-395), from the resolved vehicle: the report is persisted, one
SMS per contact is dispatched with per-contact catch, a success count is
computed but only logged, and the JSON response carries no
notification count at all. -/
def handleReportOffline (v : VehicleRec) (lat lng : Option Rat)
    (manualLocation helperNote : Option Str)
    (smsSend : EmergencyContact → Bool) : EndpointOutcome :=
  let report : SubmittedReport :=
    { vehicleId := v.id, lat := lat, lng := lng,
      manualLocation := manualLocation, helperNote := helperNote }
  let results := v.contacts.map smsSend
  let _successCount := (results.filter id).length
  { persisted := some report, httpOk := true, notificationCount := none }

/-- Observable outcome of POST /sms-webhook: what was persisted, whether
an error response was returned to the gateway, and the contactsNotified
count of the Telerivet-shaped JSON acknowledgment (the Twilio XML
acknowledgment carries no count). -/
structure WebhookOutcome where
  persisted : Option SubmittedReport
  errorResponse : Bool
  contactsNotified : Option Nat
deriving DecidableEq

/-- Embedding of the POST /sms-webhook pipeline (src/routes/accidents.js
lines 399-644) after webhook-shape detection: parse the body grammar,
resolve the vehicle token, reject with an error response when the vehicle
is unknown or has no emergency contacts (in the latter case BEFORE any
report is persisted), otherwise persist the report, send one SMS per
contact with per-contact catch, and acknowledge with
contactsNotified = number of successful sends. -/
def handleSmsWebhook (lookup : Str → Option VehicleRec)
    (smsSend : EmergencyContact → Bool) (body : Str) : WebhookOutcome :=
  match parseSmsBody body with
  | .invalidFormat => { persisted := none, errorResponse := true, contactsNotified := none }
  | .missingToken => { persisted := none, errorResponse := true, contactsNotified := none }
  | .report qrToken lat lng manualLocation helperNote =>
    match lookup qrToken with
    | none => { persisted := none, errorResponse := true, contactsNotified := none }
    | some v =>
      if v.contacts = [] then
        { persisted := none, errorResponse := true, contactsNotified := none }
      else
        let report : SubmittedReport :=
          { vehicleId := v.id, lat := lat, lng := lng,
            manualLocation := manualLocation, helperNote := helperNote }
        let results := v.contacts.map smsSend
        let successCount := (results.filter id).length
        { persisted := some report, errorResponse := false,
          contactsNotified := some successCount }

/-- Auxiliary lemma: for results produced by mapping a send oracle over
the contacts, the length of the successful sub-list is the count of
contacts whose send succeeded. -/
theorem length_filter_map_send (l : List EmergencyContact)
    (f : EmergencyContact → Bool) :
    ((l.map f).filter id).length = l.countP f := by
  induction l with
  | nil => rfl
  | cons c rest ih =>
    by_cases h : f c = true
    · simp [List.filter_cons, List.countP_cons, h, ih]
    · simp only [Bool.not_eq_true] at h
      simp [List.filter_cons, List.countP_cons, h, ih]

/-- Example contact used in concrete instantiations. -/
def contactA : EmergencyContact :=
  { name := str "Asha", email := str "asha@example.com",
    phoneNumber := str "+919876543210" }

/-- Second example contact used in concrete instantiations. -/
def contactB : EmergencyContact :=
  { name := str "Ravi", email := str "ravi@example.com",
    phoneNumber := str "+14155550123" }

/-- Example vehicle with two emergency contacts. -/
def vehicleTwoContacts : VehicleRec :=
  { id := 1, licensePlate := str "KA01AB1234", model := some (str "Swift"),
    color := some (str "Red"), contacts := [contactA, contactB] }

/-- Example vehicle with zero emergency contacts. -/
def vehicleNoContacts : VehicleRec :=
  { id := 2, licensePlate := str "KA02CD5678", model := none, color := none,
    contacts := [] }

/-- C1 counterexample: the claim says the count returned to the caller
equals the number of contacts for which the (single) channel succeeded.
For POST /report with a two-contact vehicle whose email attempts all
fail, the response still reports notificationCount = 2 while the number
of contacts with a successful channel is 0: the endpoint returns
vehicle.emergencyContacts.length and ignores the settled results. -/
theorem c1_counterexample :
    (handleReport vehicleTwoContacts none none none none
        (fun _ => false)).notificationCount = some 2 ∧
    vehicleTwoContacts.contacts.countP (fun _ => false) = 0 ∧
    (2 : Nat) ≠ 0 :=
  ⟨rfl, rfl, by decide⟩

/-- C1 amended: the count returned to the caller depends on the
endpoint.  POST /report always reports notificationCount equal to the
TOTAL number of emergency contacts of the vehicle, regardless of email
outcomes; POST /report-offline returns no count at all (the success
count is computed but only logged); and the SMS-webhook acknowledgment
reports contactsNotified equal to the number of contacts whose SMS send
succeeded. -/
theorem c1_amended_counts :
    (∀ (v : VehicleRec) (lat lng : Option Rat) (loc note : Option Str)
        (send : EmergencyContact → Bool),
      (handleReport v lat lng loc note send).notificationCount = some v.contacts.length) ∧
    (∀ (v : VehicleRec) (lat lng : Option Rat) (loc note : Option Str)
        (send : EmergencyContact → Bool),
      (handleReportOffline v lat lng loc note send).notificationCount = none) ∧
    (∀ (lookup : Str → Option VehicleRec) (send : EmergencyContact → Bool)
        (body qk : Str) (lat lng : Option Rat) (loc note : Option Str) (v : VehicleRec),
      parseSmsBody body = .report qk lat lng loc note →
      lookup qk = some v → v.contacts ≠ [] →
      (handleSmsWebhook lookup send body).contactsNotified =
        some (v.contacts.countP send)) := by
  refine ⟨fun v _ _ _ _ _ => rfl, fun v _ _ _ _ _ => rfl, ?_⟩
  intro lookup send body qk lat lng loc note v hparse hlook hne
  unfold handleSmsWebhook
  rw [hparse]
  dsimp only
  rw [hlook]
  dsimp only
  rw [if_neg hne]
  dsimp only
  rw [length_filter_map_send]

/-- Witness for the amended C1 theorem: with both sends succeeding, the
webhook acknowledgment counts both contacts, and POST /report reports
the total contact count. -/
theorem c1_amended_counts_witness :
    (handleReport vehicleTwoContacts none none none none
        (fun _ => true)).notificationCount = some 2 ∧
    (handleSmsWebhook (fun t => if t = str "tok123" then some vehicleTwoContacts else none)
        (fun _ => true) (str "REPORT tok123")).contactsNotified = some 2 := by
  constructor
  · exact c1_amended_counts.1 vehicleTwoContacts none none none none (fun _ => true)
  · have h := c1_amended_counts.2.2
      (fun t => if t = str "tok123" then some vehicleTwoContacts else none)
      (fun _ => true) (str "REPORT tok123") (str "tok123") none none none none
      vehicleTwoContacts rfl (by rfl) (by decide)
    exact h.trans (by rfl)

/-- C6 counterexample: the claim says a valid submission on any channel
for a vehicle with zero emergency contacts still persists the report and
reports a notified count of 0 without an error response.  On the SMS
webhook channel, a valid REPORT body for a zero-contact vehicle is
answered with an error response and nothing is persisted: the handler
returns the no-emergency-contacts error before creating the report. -/
theorem c6_counterexample :
    (handleSmsWebhook (fun t => if t = str "tok9" then some vehicleNoContacts else none)
        (fun _ => false) (str "REPORT tok9")).persisted = none ∧
    (handleSmsWebhook (fun t => if t = str "tok9" then some vehicleNoContacts else none)
        (fun _ => false) (str "REPORT tok9")).errorResponse = true :=
  ⟨rfl, rfl⟩

/-- C6 amended: for the two form endpoints (POST /report and
POST /report-offline) a valid submission for a vehicle with zero
emergency contacts still succeeds: the report is persisted and the
response is a success response (POST /report reports
notificationCount 0, the offline variant carries no count).  The SMS
webhook channel instead rejects such a submission with a
no-emergency-contacts error response and persists nothing. -/
theorem c6_amended_zero_contacts :
    (∀ (v : VehicleRec) (lat lng : Option Rat) (loc note : Option Str)
        (send : EmergencyContact → Bool), v.contacts = [] →
      handleReport v lat lng loc note send =
        { persisted := some ⟨v.id, lat, lng, loc, note⟩, httpOk := true,
          notificationCount := some 0 }) ∧
    (∀ (v : VehicleRec) (lat lng : Option Rat) (loc note : Option Str)
        (send : EmergencyContact → Bool), v.contacts = [] →
      handleReportOffline v lat lng loc note send =
        { persisted := some ⟨v.id, lat, lng, loc, note⟩, httpOk := true,
          notificationCount := none }) ∧
    (∀ (lookup : Str → Option VehicleRec) (send : EmergencyContact → Bool)
        (body qk : Str) (lat lng : Option Rat) (loc note : Option Str) (v : VehicleRec),
      parseSmsBody body = .report qk lat lng loc note →
      lookup qk = some v → v.contacts = [] →
      handleSmsWebhook lookup send body =
        { persisted := none, errorResponse := true, contactsNotified := none }) := by
  refine ⟨?_, ?_, ?_⟩
  · intro v lat lng loc note send h
    simp [handleReport, h]
  · intro v lat lng loc note send h
    simp [handleReportOffline, h]
  · intro lookup send body qk lat lng loc note v hparse hlook h
    unfold handleSmsWebhook
    rw [hparse]
    dsimp only
    rw [hlook]
    dsimp only
    rw [if_pos h]

/-- Witness for the amended C6 theorem at a concrete zero-contact
vehicle on all three channels. -/
theorem c6_amended_zero_contacts_witness :
    handleReport vehicleNoContacts none none none none (fun _ => false) =
      { persisted := some ⟨2, none, none, none, none⟩, httpOk := true,
        notificationCount := some 0 } ∧
    handleReportOffline vehicleNoContacts none none none none (fun _ => false) =
      { persisted := some ⟨2, none, none, none, none⟩, httpOk := true,
        notificationCount := none } ∧
    handleSmsWebhook (fun t => if t = str "tok9" then some vehicleNoContacts else none)
        (fun _ => false) (str "REPORT tok9") =
      { persisted := none, errorResponse := true, contactsNotified := none } := by
  refine ⟨?_, ?_, ?_⟩
  · exact c6_amended_zero_contacts.1 vehicleNoContacts none none none none
      (fun _ => false) rfl
  · exact c6_amended_zero_contacts.2.1 vehicleNoContacts none none none none
      (fun _ => false) rfl
  · exact c6_amended_zero_contacts.2.2
      (fun t => if t = str "tok9" then some vehicleNoContacts else none)
      (fun _ => false) (str "REPORT tok9") (str "tok9") none none none none
      vehicleNoContacts rfl (by rfl) rfl

/-! ### Offline storage layer: claims C2 and C9 -/

/-- Status values a queued report takes in the client-side store. -/
inductive ReportStatus where
  | pending | syncing | failed | permanentlyFailed
deriving DecidableEq

/-- Queued report entry of the reports store (the report payload fields
are irrelevant to the queue-lifecycle claims and omitted). -/
structure QueueEntry where
  id : Nat
  status : ReportStatus
  retryCount : Nat
deriving DecidableEq

/-- Entry freshly created by queueReport: status pending, retryCount 0. -/
def freshEntry (id : Nat) : QueueEntry :=
  { id := id, status := .pending, retryCount := 0 }

/-- Embedding of updateReportStatus on the addressed entry
(src/unnamed/part_004 lines 780-818): the status is overwritten and a
transition to failed additionally increments retryCount. -/
def updateEntryStatus (e : QueueEntry) (s : ReportStatus) : QueueEntry :=
  { e with
    status := s
    retryCount := if s = .failed then e.retryCount + 1 else e.retryCount }

/-- Store-level updateReportStatus: rewrite the entry with the given id
(ids are unique autoincrement keys, modelled by updating every match). -/
def updateReportStatus (q : List QueueEntry) (id : Nat) (s : ReportStatus) :
    List QueueEntry :=
  q.map (fun e => if e.id = id then updateEntryStatus e s else e)

/-- Embedding of getPendingReports (src/unnamed/part_004 lines 662-688):
the status index is read at key pending and the result filtered again on
status = pending as a safety check; both steps collapse to this filter. -/
def getPendingReports (q : List QueueEntry) : List QueueEntry :=
  q.filter (fun e => e.status = .pending)

/-- One sync-cycle pass over a single queued entry whose HTTP submission
fails, from the drain loop of syncAllPendingReports
(src/public/js/offline-sync.js lines 199-230 with the failure branch of
syncReport, lines 128-138): an entry that is no longer pending is
skipped; otherwise it is marked syncing, the failed submission marks it
failed (incrementing retryCount), and the loop then parks it as
permanently failed when the retryCount snapshot read at listing time —
NOT the freshly incremented value — is already at least 5, else re-marks
it pending for the next cycle. -/
def failingCycle (e : QueueEntry) : QueueEntry :=
  if e.status = .pending then
    let snapshot := e.retryCount
    let e1 := updateEntryStatus e .syncing
    let e2 := updateEntryStatus e1 .failed
    if 5 ≤ snapshot then updateEntryStatus e2 .permanentlyFailed
    else updateEntryStatus e2 .pending
  else e

/-- Auxiliary lemma: closed form of n consecutive failing sync cycles on
a freshly queued entry. -/
theorem failingCycle_iterate (id : Nat) :
    ∀ n : Nat, failingCycle^[n] (freshEntry id) =
      if n ≤ 5 then { id := id, status := .pending, retryCount := n }
      else { id := id, status := .permanentlyFailed, retryCount := 6 } := by
  intro n
  induction n with
  | zero => rfl
  | succ m ih =>
    rw [Function.iterate_succ_apply', ih]
    by_cases h5 : m ≤ 5
    · rw [if_pos h5]
      by_cases h4 : m ≤ 4
      · have hm5 : m + 1 ≤ 5 := by omega
        have hsnap : ¬ (5 ≤ m) := by omega
        simp [failingCycle, updateEntryStatus, hm5, hsnap]
      · have hm : m = 5 := by omega
        subst hm
        simp [failingCycle, updateEntryStatus]
    · rw [if_neg h5, if_neg (by omega)]
      simp [failingCycle]

/-- C2 counterexample: the claim says that after 5 consecutive failed
sync submissions the entry is permanently_failed with retryCount
incremented once per failure.  After exactly 5 consecutive failures the
entry has retryCount = 5 but is still pending, not permanently_failed:
the park decision compares the stale retryCount snapshot read before the
failure was recorded. -/
theorem c2_counterexample :
    (failingCycle^[5] (freshEntry 1)).retryCount = 5 ∧
    (failingCycle^[5] (freshEntry 1)).status = .pending ∧
    (failingCycle^[5] (freshEntry 1)).status ≠ .permanentlyFailed := by
  refine ⟨?_, ?_, ?_⟩ <;> simp [failingCycle_iterate]

/-- C2 amended: retryCount is incremented once per failure, but the
entry is parked as permanently_failed only by its SIXTH consecutive
failure (the park test compares the retryCount snapshot read at listing
time, which reaches 5 only after five recorded failures); an entry in
permanently_failed — or any status other than pending — is never
returned by getPendingReports, so a parked entry is not retried and its
state is frozen at retryCount 6. -/
theorem c2_amended_retry_ceiling :
    (∀ (id n : Nat),
      (failingCycle^[n] (freshEntry id)).retryCount = min n 6 ∧
      (failingCycle^[n] (freshEntry id)).status =
        (if n ≤ 5 then ReportStatus.pending else ReportStatus.permanentlyFailed)) ∧
    (∀ (q : List QueueEntry) (e : QueueEntry),
      e ∈ getPendingReports q → e.status = .pending) := by
  constructor
  · intro id n
    rw [failingCycle_iterate]
    by_cases h : n ≤ 5
    · simp [if_pos h]
      omega
    · simp [if_neg h]
      omega
  · intro q e he
    have := List.of_mem_filter he
    simpa using this

/-- Witness for the amended C2 theorem: six failures park the entry, a
pending entry listed by getPendingReports is indeed pending. -/
theorem c2_amended_retry_ceiling_witness :
    (failingCycle^[6] (freshEntry 1)).retryCount = 6 ∧
    (failingCycle^[6] (freshEntry 1)).status = .permanentlyFailed ∧
    (freshEntry 3).status = .pending := by
  refine ⟨?_, ?_, ?_⟩
  · exact ((c2_amended_retry_ceiling.1 1 6).1).trans (by decide)
  · exact ((c2_amended_retry_ceiling.1 1 6).2).trans (by decide)
  · exact c2_amended_retry_ceiling.2 [freshEntry 3] (freshEntry 3) (by decide)

/-- Image record row of the images store, keyed by id, with a reportId
index (the payload is modelled separately for claim C10). -/
structure ImageRow where
  id : Nat
  reportId : Nat
deriving DecidableEq

/-- Offline store contents: the reports store and the images store. -/
structure OfflineStore where
  reports : List QueueEntry
  images : List ImageRow
deriving DecidableEq

/-- Embedding of removeReport (src/unnamed/part_004 lines 820-854): in
one readwrite transaction over both stores, every image row found by the
reportId index is deleted by its key and the report row is deleted by
its key; the transaction commits both deletions together. -/
def removeReport (st : OfflineStore) (id : Nat) : OfflineStore :=
  { reports := st.reports.filter (fun r => r.id ≠ id),
    images := st.images.filter (fun im => im.reportId ≠ id) }

/-- C9: removing a queued report deletes the report entry and every
image row keyed to it together: afterwards a row survives exactly when
it did not belong to the removed queue id, so no orphan image of the
deleted report can remain and no unrelated row is touched. -/
theorem c9_remove_atomic (st : OfflineStore) (id : Nat) :
    (∀ r : QueueEntry, r ∈ (removeReport st id).reports ↔ (r ∈ st.reports ∧ r.id ≠ id)) ∧
    (∀ im : ImageRow, im ∈ (removeReport st id).images ↔ (im ∈ st.images ∧ im.reportId ≠ id)) := by
  constructor
  · intro r
    simp [removeReport]
  · intro im
    simp [removeReport]

/-! ### Sync engine guards: claim C8 -/

/-- Cooldown between sync-cycle starts, in milliseconds. -/
def SYNC_COOLDOWN : Nat := 10000

/-- Staleness timeout of the durable localStorage lock, in milliseconds. -/
def SYNC_LOCK_TIMEOUT : Nat := 30000

/-- Client environment read and written by syncAllPendingReports: the
module-level in-memory flag, the durable localStorage lock record and
last-sync record, the current clock, and the connectivity signal. -/
structure SyncEnv where
  isSyncing : Bool
  lockTime : Option Nat
  lastSync : Nat
  now : Nat
  online : Bool
deriving DecidableEq

/-- Embedding of getSyncLock (src/public/js/offline-sync.js lines 27-42):
an absent record is clear; a record older than the staleness timeout is
removed and reported clear; otherwise the lock blocks.  Returns the held
flag and the possibly-cleared stored record.  (JavaScript computes
now - lockTime in signed arithmetic, so a future timestamp gives a
negative difference that still blocks; truncated Nat subtraction gives 0
there and agrees.) -/
def getSyncLock (now : Nat) (lockTime : Option Nat) : Bool × Option Nat :=
  match lockTime with
  | none => (false, none)
  | some t => if SYNC_LOCK_TIMEOUT < now - t then (false, none) else (true, some t)

/-- Embedding of syncReport (src/public/js/offline-sync.js lines 61-139)
with the HTTP submission abstracted by the submit oracle: a 2xx response
removes the queued report and its images immediately; any failure or
thrown error is caught and records status failed (incrementing
retryCount). -/
def syncReport (st : OfflineStore) (submit : QueueEntry → Bool)
    (r : QueueEntry) : OfflineStore × Bool :=
  if submit r then (removeReport st r.id, true)
  else ({ st with reports := updateReportStatus st.reports r.id .failed }, false)

/-- Drain loop of syncAllPendingReports (lines 199-230): for each listed
entry, re-read the fresh pending list and skip the entry unless it is
still pending; otherwise mark it syncing, submit it, and on failure park
it as permanently failed or re-mark it pending by the stale retryCount
snapshot.  The abortAfter fuel models an exception thrown after that
many loop iterations (the remaining entries are not processed and the
final flag reports the abnormal end); none models a run without
exception.  Returns synced count, failed count, ids submitted to the
server in order, the final store, and the normal-completion flag. -/
def drainLoop (submit : QueueEntry → Bool) :
    List QueueEntry → OfflineStore → Option Nat →
      Nat × Nat × List Nat × OfflineStore × Bool
  | [], st, _ => (0, 0, [], st, true)
  | r :: rest, st, abortAfter =>
    if abortAfter = some 0 then (0, 0, [], st, false)
    else
      let abortNext := abortAfter.map (fun k => k - 1)
      if (getPendingReports st.reports).any
          (fun x => x.id = r.id && x.status = ReportStatus.pending) then
        let st1 : OfflineStore :=
          { st with reports := updateReportStatus st.reports r.id .syncing }
        let step := syncReport st1 submit r
        if step.2 then
          let rec1 := drainLoop submit rest step.1 abortNext
          (rec1.1 + 1, rec1.2.1, r.id :: rec1.2.2.1, rec1.2.2.2)
        else
          let parked : ReportStatus :=
            if 5 ≤ r.retryCount then .permanentlyFailed else .pending
          let st3 : OfflineStore :=
            { step.1 with reports := updateReportStatus step.1.reports r.id parked }
          let rec2 := drainLoop submit rest st3 abortNext
          (rec2.1, rec2.2.1 + 1, r.id :: rec2.2.2.1, rec2.2.2.2)
      else drainLoop submit rest st abortNext

/-- Aggregate result returned by a sync cycle. -/
structure SyncResult where
  synced : Nat
  failed : Nat
deriving DecidableEq

/-- Observable outcome of one syncAllPendingReports call: the returned
result, the final store and environment, the ids submitted to the
server, and whether a cycle actually started. -/
structure SyncOutcome where
  result : SyncResult
  store : OfflineStore
  env : SyncEnv
  submitted : List Nat
  ran : Bool
deriving DecidableEq

/-- Embedding of syncAllPendingReports (src/public/js/offline-sync.js
lines 142-243): the in-memory flag, the durable lock (with staleness
handling inside getSyncLock), the 10s cooldown since the last recorded
cycle start, and the connectivity signal are checked in that order and
any of them being unsatisfied returns synced 0 / failed 0 without
touching the store; otherwise both locks are taken, the cycle start is
recorded, the pending list is drained (the duplicated const declaration
in the source reads the same pending list twice from the untouched
store; the loop runs over that list), and the finally block releases
both locks whether or not the drain ended in an exception. -/
def syncAllPendingReports (env : SyncEnv) (st : OfflineStore)
    (submit : QueueEntry → Bool) (abortAfter : Option Nat) : SyncOutcome :=
  if env.isSyncing then
    { result := ⟨0, 0⟩, store := st, env := env, submitted := [], ran := false }
  else
    let lock := getSyncLock env.now env.lockTime
    let env1 : SyncEnv := { env with lockTime := lock.2 }
    if lock.1 then
      { result := ⟨0, 0⟩, store := st, env := env1, submitted := [], ran := false }
    else if env.now - env.lastSync < SYNC_COOLDOWN then
      { result := ⟨0, 0⟩, store := st, env := env1, submitted := [], ran := false }
    else if env.online = false then
      { result := ⟨0, 0⟩, store := st, env := env1, submitted := [], ran := false }
    else
      let pending := getPendingReports st.reports
      let d := drainLoop submit pending st abortAfter
      { result := ⟨d.1, d.2.1⟩
        store := d.2.2.2.1
        env := { env with
                 isSyncing := false
                 lockTime := none
                 lastSync := env.now }
        submitted := d.2.2.1
        ran := true }

/-- C8: a sync cycle never starts while another is in flight or too
recent: when the in-memory flag is set, or a durable lock record younger
than the 30s staleness timeout exists, or fewer than 10s have elapsed
since the last recorded cycle start, or the client is offline, the call
submits nothing, changes no queue entry, and returns synced 0 /
failed 0.  A durable lock older than 30s does not block: with the other
guards clear the cycle starts.  And every started cycle — including one
aborted by an exception mid-drain (any abortAfter fuel) — ends with the
in-memory flag cleared and the durable lock record removed. -/
theorem c8_sync_guards (env : SyncEnv) (st : OfflineStore)
    (submit : QueueEntry → Bool) (abortAfter : Option Nat) :
    (env.isSyncing = true ∨ (getSyncLock env.now env.lockTime).1 = true ∨
        env.now - env.lastSync < SYNC_COOLDOWN ∨ env.online = false →
      (syncAllPendingReports env st submit abortAfter).result = ⟨0, 0⟩ ∧
      (syncAllPendingReports env st submit abortAfter).store = st ∧
      (syncAllPendingReports env st submit abortAfter).submitted = [] ∧
      (syncAllPendingReports env st submit abortAfter).ran = false) ∧
    (∀ t : Nat, env.isSyncing = false → env.lockTime = some t →
      SYNC_LOCK_TIMEOUT < env.now - t →
      SYNC_COOLDOWN ≤ env.now - env.lastSync → env.online = true →
      (syncAllPendingReports env st submit abortAfter).ran = true) ∧
    ((syncAllPendingReports env st submit abortAfter).ran = true →
      (syncAllPendingReports env st submit abortAfter).env.isSyncing = false ∧
      (syncAllPendingReports env st submit abortAfter).env.lockTime = none) := by
  refine ⟨?_, ?_, ?_⟩
  · intro hguard
    unfold syncAllPendingReports
    rcases hguard with h | h | h | h
    · simp [h]
    · by_cases hs : env.isSyncing = true
      · simp [hs]
      · simp only [Bool.not_eq_true] at hs
        simp [hs, h]
    · by_cases hs : env.isSyncing = true
      · simp [hs]
      · simp only [Bool.not_eq_true] at hs
        by_cases hl : (getSyncLock env.now env.lockTime).1 = true
        · simp [hs, hl]
        · simp only [Bool.not_eq_true] at hl
          simp [hs, hl, h]
    · by_cases hs : env.isSyncing = true
      · simp [hs]
      · simp only [Bool.not_eq_true] at hs
        by_cases hl : (getSyncLock env.now env.lockTime).1 = true
        · simp [hs, hl]
        · simp only [Bool.not_eq_true] at hl
          by_cases hc : env.now - env.lastSync < SYNC_COOLDOWN
          · simp [hs, hl, hc]
          · simp [hs, hl, hc, h]
  · intro t hs hlock hstale hcool honline
    have hheld : getSyncLock env.now env.lockTime = (false, none) := by
      rw [hlock]
      simp [getSyncLock, hstale]
    unfold syncAllPendingReports
    simp [hs, hheld, honline, Nat.not_lt.mpr hcool]
  · intro hran
    unfold syncAllPendingReports at hran ⊢
    by_cases hs : env.isSyncing = true
    · simp [hs] at hran
    · simp only [Bool.not_eq_true] at hs
      by_cases hl : (getSyncLock env.now env.lockTime).1 = true
      · simp [hs, hl] at hran
      · simp only [Bool.not_eq_true] at hl
        by_cases hc : env.now - env.lastSync < SYNC_COOLDOWN
        · simp [hs, hl, hc] at hran
        · by_cases ho : env.online = false
          · simp [hs, hl, hc, ho] at hran
          · simp [hs, hl, hc, ho]

/-- Witness for the C8 theorem: a call while the in-memory flag is set
is a no-op, a call with a 31s-old durable lock and all other guards
clear starts a cycle, and that cycle ends with both locks released. -/
theorem c8_sync_guards_witness :
    (syncAllPendingReports ⟨true, none, 0, 100000, true⟩ ⟨[], []⟩
        (fun _ => true) none).result = ⟨0, 0⟩ ∧
    (syncAllPendingReports ⟨false, some 69000, 0, 100000, true⟩ ⟨[], []⟩
        (fun _ => true) none).ran = true ∧
    (syncAllPendingReports ⟨false, some 69000, 0, 100000, true⟩ ⟨[], []⟩
        (fun _ => true) none).env.lockTime = none := by
  refine ⟨?_, ?_, ?_⟩
  · exact ((c8_sync_guards ⟨true, none, 0, 100000, true⟩ ⟨[], []⟩
      (fun _ => true) none).1 (Or.inl rfl)).1
  · exact (c8_sync_guards ⟨false, some 69000, 0, 100000, true⟩ ⟨[], []⟩
      (fun _ => true) none).2.1 69000 rfl rfl (by decide) (by decide) rfl
  · exact ((c8_sync_guards ⟨false, some 69000, 0, 100000, true⟩ ⟨[], []⟩
      (fun _ => true) none).2.2
      ((c8_sync_guards ⟨false, some 69000, 0, 100000, true⟩ ⟨[], []⟩
        (fun _ => true) none).2.1 69000 rfl rfl (by decide) (by decide) rfl)).2

/-! ### Image reconstruction: claim C10 -/

/-- ASCII whitespace stripped by the forgiving-base64 decode behind the
browser atob builtin. -/
def isAsciiWs (c : Char) : Bool :=
  c = ' ' || c = '\t' || c = '\n' || c = '\x0c' || c = '\r'

/-- Value of one base64 alphabet character (none for a character outside
the alphabet, which makes atob throw). -/
def b64Val (c : Char) : Option Nat :=
  if 'A' ≤ c && c ≤ 'Z' then some (c.toNat - 'A'.toNat)
  else if 'a' ≤ c && c ≤ 'z' then some (c.toNat - 'a'.toNat + 26)
  else if '0' ≤ c && c ≤ '9' then some (c.toNat - '0'.toNat + 52)
  else if c = '+' then some 62
  else if c = '/' then some 63
  else none

/-- Reassembly of decoded 6-bit groups into bytes: full groups of four
give three bytes, a trailing group of two or three gives one or two. -/
def b64DecodeVals : List Nat → List Nat
  | a :: b :: c :: d :: rest =>
    (a * 4 + b / 16) :: ((b % 16) * 16 + c / 4) :: ((c % 4) * 64 + d) :: b64DecodeVals rest
  | [a, b] => [a * 4 + b / 16]
  | [a, b, c] => [a * 4 + b / 16, (b % 16) * 16 + c / 4]
  | _ => []

/-- Padding removal of forgiving-base64: up to two trailing equals signs
are dropped when the whitespace-stripped input length is a multiple of
four. -/
def stripPad (s : Str) : Str :=
  match s.reverse with
  | '=' :: '=' :: t => t.reverse
  | '=' :: t => t.reverse
  | _ => s

/-- Model of the browser atob builtin (forgiving-base64 decode): strip
ASCII whitespace, drop the padding, reject a leftover length of 1 mod 4
or any character outside the alphabet (none models the thrown
InvalidCharacterError), and decode the rest to bytes. -/
def jsAtob (s : Str) : Option (List Nat) :=
  let s1 := s.filter (fun c => !(isAsciiWs c))
  let s2 := if s1.length % 4 = 0 then stripPad s1 else s1
  if s2.length % 4 = 1 then none
  else
    match s2.mapM b64Val with
    | some vals => some (b64DecodeVals vals)
    | none => none

/-- Browser File object reconstructed from a stored record: name, MIME
type (the stored type field), and content bytes; size = bytes.length. -/
structure JsFile where
  name : Str
  mime : Str
  bytes : List Nat
deriving DecidableEq

/-- Embedding of base64ToFile (src/unnamed/part_004 lines 584-593): atob
the stored string and wrap the bytes as a File; none models the atob
exception, which the caller's try/catch turns into a dropped record. -/
def base64ToFile (b64 fname mime : Str) : Option JsFile :=
  (jsAtob b64).map (fun bs => { name := fname, mime := mime, bytes := bs })

/-- Dynamic value found in the legacy blob field of a stored record: a
real ArrayBuffer, a Uint8Array view (whose buffer is taken), some other
object exposing byteLength (whose buffer property may or may not be an
ArrayBuffer), or a value of a different shape entirely. -/
inductive JsBlobVal where
  | arrayBuffer (bytes : List Nat)
  | uint8Array (bytes : List Nat)
  | byteLengthObj (bytes : List Nat) (hasBuffer : Bool)
  | otherVal
deriving DecidableEq

/-- Stored image record as read back from the images store: the new
base64 field, the legacy blob field, and the stored filename and MIME
type, each possibly missing. -/
structure StoredImage where
  base64 : Option Str
  blob : Option JsBlobVal
  filename : Option Str
  mime : Option Str
deriving DecidableEq

/-- JavaScript logical-or fallback on a string field: the stored value
unless it is missing or empty. -/
def orElseStr (o : Option Str) (d : Str) : Str :=
  match o with
  | some s => if s = [] then d else s
  | none => d

/-- Default filename used for the record at a given zero-based index. -/
def defaultImageName (idx : Nat) : Str :=
  str "image_" ++ Nat.toDigits 10 (idx + 1) ++ str ".jpg"

/-- Legacy-branch conversion of getReportImages (src/unnamed/part_004
lines 720-746): accept an ArrayBuffer directly, take the buffer of a
Uint8Array or of another byteLength-carrying object when it has one,
reject anything else, and reject an empty buffer. -/
def blobToFile (blob : Option JsBlobVal) (fname mime : Str) : Option JsFile :=
  match blob with
  | some (.arrayBuffer bs) => if bs.length = 0 then none else some ⟨fname, mime, bs⟩
  | some (.uint8Array bs) => if bs.length = 0 then none else some ⟨fname, mime, bs⟩
  | some (.byteLengthObj bs hasBuf) =>
    if hasBuf then (if bs.length = 0 then none else some ⟨fname, mime, bs⟩) else none
  | some .otherVal => none
  | none => none

/-- Final null-or-empty guard of the per-record conversion (the checks
if !file || file.size === 0 return null). -/
def dropEmpty (o : Option JsFile) : Option JsFile :=
  match o with
  | some f => if f.bytes.length = 0 then none else some f
  | none => none

/-- Embedding of the per-record conversion of getReportImages
(src/unnamed/part_004 lines 712-763): a truthy base64 field is decoded
via base64ToFile, otherwise a truthy legacy blob field is converted; any
conversion error (the surrounding try/catch), missing data, or an empty
resulting file yields null and the record is dropped. -/
def convertStoredImage (idx : Nat) (img : StoredImage) : Option JsFile :=
  let fname := orElseStr img.filename (defaultImageName idx)
  let mime := orElseStr img.mime (str "image/jpeg")
  dropEmpty
    (match img.base64 with
     | some b64 =>
       if b64 = [] then blobToFile img.blob fname mime
       else base64ToFile b64 fname mime
     | none => blobToFile img.blob fname mime)

/-- Embedding of getReportImages (src/unnamed/part_004 lines 691-777):
map the per-record conversion over the records in insertion order, then
keep the non-null files of positive size. -/
def getReportImages (imgs : List StoredImage) : List JsFile :=
  (imgs.enum.map (fun p => convertStoredImage p.1 p.2)).filterMap
    (fun o =>
      match o with
      | some f => if 0 < f.bytes.length then some f else none
      | none => none)

/-- Claim-side reading of C10 for a single record, written from the
claim's words: a record is well-formed when it carries a non-empty
new-format base64 payload that decodes (decoding failure makes it
unconvertible) to at least one byte or, in the absence of such a
payload, a legacy payload that is or wraps a non-empty ArrayBuffer; a
well-formed record yields the File with the stored-or-default name and
MIME type, and every other record is silently dropped. -/
def claimConvert (idx : Nat) (img : StoredImage) : Option JsFile :=
  let fname := orElseStr img.filename (defaultImageName idx)
  let mime := orElseStr img.mime (str "image/jpeg")
  let legacy : Option JsFile := dropEmpty (blobToFile img.blob fname mime)
  match img.base64 with
  | some b64 =>
    if b64 = [] then legacy
    else
      match jsAtob b64 with
      | some bs => if bs.length = 0 then none else some ⟨fname, mime, bs⟩
      | none => none
  | none => legacy

/-- Auxiliary lemma: the null-or-empty guard only passes files of
positive size. -/
theorem dropEmpty_pos (o : Option JsFile) (f : JsFile)
    (h : dropEmpty o = some f) : 0 < f.bytes.length := by
  cases o with
  | none => simp [dropEmpty] at h
  | some g =>
    by_cases hz : g.bytes.length = 0
    · simp [dropEmpty, hz] at h
    · simp only [dropEmpty, if_neg hz] at h
      cases h
      omega

/-- Auxiliary lemma: the per-record conversion of the code agrees with
the claim-side reading on every record. -/
theorem convertStoredImage_eq_claim (idx : Nat) (img : StoredImage) :
    convertStoredImage idx img = claimConvert idx img := by
  unfold convertStoredImage claimConvert base64ToFile
  cases hb : img.base64 with
  | none => rfl
  | some b64 =>
    by_cases he : b64 = []
    · simp [he]
    · simp only [if_neg he]
      cases ha : jsAtob b64 with
      | none => rfl
      | some bs =>
        by_cases hz : bs.length = 0
        · simp [dropEmpty, ha, hz]
        · simp [dropEmpty, ha, hz]

/-- Auxiliary lemma: a converted record always has positive size. -/
theorem convertStoredImage_pos (idx : Nat) (img : StoredImage) (f : JsFile)
    (h : convertStoredImage idx img = some f) : 0 < f.bytes.length := by
  unfold convertStoredImage at h
  exact dropEmpty_pos _ f h

/-- C10: reconstructing a queued report's images never rejects because
of a malformed stored record: the result equals the claim-side
per-record reading mapped over the records in insertion order (so both
the base64 and the legacy ArrayBuffer encodings are accepted, and a
record with missing, unconvertible, or zero-length data is silently
dropped), every returned File has positive size, and at most as many
files as records are returned — a report can sync with fewer images than
were attached. -/
theorem c10_image_reconstruction (imgs : List StoredImage) :
    getReportImages imgs = imgs.enum.filterMap (fun p => claimConvert p.1 p.2) ∧
    (∀ f ∈ getReportImages imgs, 0 < f.bytes.length) ∧
    (getReportImages imgs).length ≤ imgs.length := by
  have hstep : ∀ p : Nat × StoredImage,
      (match convertStoredImage p.1 p.2 with
        | some f => if 0 < f.bytes.length then some f else none
        | none => none) = claimConvert p.1 p.2 := by
    intro p
    rw [← convertStoredImage_eq_claim p.1 p.2]
    cases hc : convertStoredImage p.1 p.2 with
    | none => rfl
    | some f =>
      have := convertStoredImage_pos p.1 p.2 f hc
      simp [this]
  have hmain : getReportImages imgs = imgs.enum.filterMap (fun p => claimConvert p.1 p.2) := by
    unfold getReportImages
    rw [List.filterMap_map]
    exact List.filterMap_congr (fun p _ => hstep p)
  refine ⟨hmain, ?_, ?_⟩
  · intro f hf
    rw [hmain] at hf
    obtain ⟨p, hp, hcp⟩ := List.mem_filterMap.mp hf
    rw [← convertStoredImage_eq_claim p.1 p.2] at hcp
    exact convertStoredImage_pos p.1 p.2 f hcp
  · calc (getReportImages imgs).length
        ≤ (imgs.enum.map (fun p => convertStoredImage p.1 p.2)).length :=
          List.length_filterMap_le _ _
      _ = imgs.length := by rw [List.length_map, List.enum_length]

/-- Witness for the C10 theorem at a concrete mixed record list: a good
base64 record, a good legacy record, and three bad records (no data,
invalid base64, empty buffer) yield exactly the two good files. -/
theorem c10_image_reconstruction_witness :
    getReportImages
        [ { base64 := some (str "QUJD"), blob := none,
            filename := some (str "a.jpg"), mime := some (str "image/jpeg") },
          { base64 := none, blob := some (.arrayBuffer [1, 2, 3]),
            filename := none, mime := none },
          { base64 := none, blob := none, filename := some (str "x.jpg"), mime := none },
          { base64 := some (str "!!!"), blob := none, filename := none, mime := none },
          { base64 := none, blob := some (.arrayBuffer []), filename := none, mime := none } ] =
      [ { name := str "a.jpg", mime := str "image/jpeg", bytes := [65, 66, 67] },
        { name := defaultImageName 1, mime := str "image/jpeg", bytes := [1, 2, 3] } ] ∧
    (2 : Nat) ≤ 5 := by
  have h := c10_image_reconstruction
    [ { base64 := some (str "QUJD"), blob := none,
        filename := some (str "a.jpg"), mime := some (str "image/jpeg") },
      { base64 := none, blob := some (.arrayBuffer [1, 2, 3]),
        filename := none, mime := none },
      { base64 := none, blob := none, filename := some (str "x.jpg"), mime := none },
      { base64 := some (str "!!!"), blob := none, filename := none, mime := none },
      { base64 := none, blob := some (.arrayBuffer []), filename := none, mime := none } ]
  exact ⟨h.1.trans (by rfl), by decide⟩

/-! ### SMS message construction: claim C3 -/

/-- Newline character of the message template. -/
def newlineCh : Char := '\n'

/-- Truthiness of a nullable string field. -/
def truthyStr : Option Str → Bool
  | some s => s ≠ []
  | none => false

/-- Underlying string of a nullable field (empty when absent). -/
def strOf : Option Str → Str
  | some s => s
  | none => []

/-- Model of String.prototype.split on the newline character. -/
def splitOnNl : Str → List Str
  | [] => [[]]
  | c :: cs =>
    if c = newlineCh then [] :: splitOnNl cs
    else
      match splitOnNl cs with
      | t :: ts => (c :: t) :: ts
      | [] => [[c]]

/-- Vehicle identity line of the SMS body: license plate, then model and
color when present, space-separated (src/unnamed/part_002
lines 172-175). -/
def smsVehicleLine (v : VehicleRec) : Str :=
  v.licensePlate
    ++ (if truthyStr v.model then str " " ++ strOf v.model else [])
    ++ (if truthyStr v.color then str " " ++ strOf v.color else [])

/-- Mandatory header of the SMS body: alert line, vehicle identity line
and timestamp line, each newline-terminated. -/
def smsHeader (v : VehicleRec) (timeStr : Str) : Str :=
  str "EMERGENCY ALERT" ++ [newlineCh] ++ smsVehicleLine v ++ [newlineCh]
    ++ timeStr ++ [newlineCh]

/-- Sender footer appended last (newline plus the signature). -/
def smsFooter : Str := [newlineCh] ++ str "From AssistQR"

/-- Maps link built when latitude and longitude are both truthy numbers;
the coordinate pair carries the template-literal renderings of the two
numbers, and none models the case where either is null, absent or 0
(falsy), in which case no link is built (lines 162-165). -/
def smsMapsLink : Option (Str × Str) → Str
  | some (a, b) => str "maps.google.com/?q=" ++ a ++ str "," ++ b
  | none => []

/-- Location line of the message (src/unnamed/part_002 lines 188-196):
the maps link when coordinates are present, otherwise the manual
location truncated to 45 characters, otherwise nothing; newline
terminated when present. -/
def smsLocPart (coords : Option (Str × Str)) (manualLocation : Option Str) : Str :=
  if smsMapsLink coords ≠ [] then smsMapsLink coords ++ [newlineCh]
  else if truthyStr manualLocation then
    (if 45 < (strOf manualLocation).length then
      (strOf manualLocation).take 42 ++ str "..."
     else strOf manualLocation) ++ [newlineCh]
  else []

/-- Helper-note line of the message (lines 198-202): the note truncated
to 30 characters when present, with no trailing newline. -/
def smsNotePart (helperNote : Option Str) : Str :=
  if truthyStr helperNote then
    (if 30 < (strOf helperNote).length then
      (strOf helperNote).take 27 ++ str "..."
     else strOf helperNote)
  else []

/-- Message of sendAccidentAlertSMS before the final length check
(src/unnamed/part_002 lines 169-202), assembled by the successive
appends of the source: header, then the location line, then the note. -/
def smsUnsqueezed (v : VehicleRec) (coords : Option (Str × Str))
    (manualLocation helperNote : Option Str) (timeStr : Str) : Str :=
  smsHeader v timeStr ++ smsLocPart coords manualLocation ++ smsNotePart helperNote

/-- Clip of one optional line to an integer budget: a line longer than
the budget is cut to budget minus 3 characters (clamped at zero, as the
substring builtin does) and given a three-character ellipsis. -/
def clipTo (p : Str) (r : Int) : Str :=
  if r < (p.length : Int) then p.take (r - 3).toNat ++ str "..." else p

/-- Aggressive truncation applied when the message plus footer exceeds
160 characters (src/unnamed/part_002 lines 208-232): the message is
split on newlines, the first three lines are kept whole, the fourth line
(when present and non-empty) is clipped to the remaining budget, losing
its newline, and the fifth line is appended only when more than 5
characters of budget remain after the fourth, clipped the same way; an
absent or empty fourth or fifth line contributes nothing. -/
def smsSqueeze (msg : Str) : Str :=
  let parts := splitOnNl msg
  let line : Nat → Str := fun i => (parts.get? i).getD []
  let trunc0 := line 0 ++ [newlineCh] ++ line 1 ++ [newlineCh] ++ line 2 ++ [newlineCh]
  let rem0 : Int := 160 - (smsFooter.length : Int) - (trunc0.length : Int)
  let part3 : Str := if truthyAt parts 3 then clipTo (line 3) rem0 else []
  let rem1 : Int := if truthyAt parts 3 then rem0 - (part3.length : Int) else rem0
  let part4 : Str :=
    if truthyAt parts 4 ∧ (5 : Int) < rem1 then clipTo (line 4) rem1 else []
  trunc0 ++ part3 ++ part4

/-- Embedding of the outbound SMS body construction of
sendAccidentAlertSMS (src/unnamed/part_002 lines 160-235): the message
is built, squeezed when message plus footer would exceed 160 characters,
and the footer is appended afterwards in either case. -/
def buildAlertSms (v : VehicleRec) (coords : Option (Str × Str))
    (manualLocation helperNote : Option Str) (timeStr : Str) : Str :=
  (if 160 < (smsUnsqueezed v coords manualLocation helperNote timeStr).length
        + smsFooter.length then
    smsSqueeze (smsUnsqueezed v coords manualLocation helperNote timeStr)
   else smsUnsqueezed v coords manualLocation helperNote timeStr) ++ smsFooter

/-- Substring test used to state that a fragment appears in a message. -/
def startsWithSeg : Str → Str → Bool
  | _, [] => true
  | [], _ :: _ => false
  | a :: as, b :: bs => a = b && startsWithSeg as bs

/-- Containment of a contiguous fragment anywhere in a string. -/
def containsSeg : Str → Str → Bool
  | [], needle => needle.isEmpty
  | c :: t, needle => startsWithSeg (c :: t) needle || containsSeg t needle

/-- Example vehicle whose model and color fields are long (but within
the 100/50-character caps enforced at vehicle creation). -/
def longFieldsVehicle : VehicleRec :=
  { id := 3, licensePlate := str "KA05EF9012",
    model := some (str "Mahindra XUV700 AX7 Luxury Edition All Wheel Drive Automatic Transmission Seven Seater Diesel SUV"),
    color := some (str "Midnight Black with Dual Tone Silver Accents Pack"),
    contacts := [] }

/-- Example vehicle whose plate and model together give a 101-character
identity line. -/
def wideLineVehicle : VehicleRec :=
  { id := 4, licensePlate := str "MH12AB3456CD7890EF1234GH5678IJ9012KL3456MN7890PQ12",
    model := some (str "Tata Safari Adventure Persona Edition 4x4 Diesel AT"),
    color := none,
    contacts := [] }

/-- Fixed 18-character rendering of the report timestamp used in the
concrete instantiations. -/
def timeStrEx : Str := str "11/10/25, 09:30 pm"

/-- C3 counterexample: the claim says every constructed SMS body is at
most 160 characters with the mandatory parts, including the maps link,
unmodified.  With long (but schema-valid) vehicle identity fields the
constructed body is 208 characters; and for a 101-character identity
line with coordinates present, the maps link is clipped to a 9-character
ellipsis fragment and the full link appears nowhere in the body. -/
theorem c3_counterexample :
    (buildAlertSms longFieldsVehicle none none none timeStrEx).length = 208 ∧
    ¬ (buildAlertSms longFieldsVehicle none none none timeStrEx).length ≤ 160 ∧
    containsSeg
      (buildAlertSms wideLineVehicle (some (str "12.971598", str "77.594566"))
        none none timeStrEx)
      (smsMapsLink (some (str "12.971598", str "77.594566"))) = false := by
  refine ⟨by decide, by decide, by decide⟩

/-- Auxiliary lemma: splitting a newline-free line off the front. -/
theorem splitOnNl_append (a rest : Str) (h : newlineCh ∉ a) :
    splitOnNl (a ++ newlineCh :: rest) = a :: splitOnNl rest := by
  induction a with
  | nil => simp [splitOnNl]
  | cons c cs ih =>
    have hc : ¬ (c = newlineCh) := fun hc => h (hc ▸ List.mem_cons_self c cs)
    have hcs : newlineCh ∉ cs := fun hm => h (List.mem_cons_of_mem c hm)
    rw [List.cons_append]
    show (if c = newlineCh then [] :: splitOnNl (cs ++ newlineCh :: rest)
      else match splitOnNl (cs ++ newlineCh :: rest) with
        | t :: ts => (c :: t) :: ts
        | [] => [[c]]) = (c :: cs) :: splitOnNl rest
    rw [if_neg hc, ih hcs]

/-- First three newline-terminated lines rejoined, the shape shared by
the header and by the truncation base. -/
def threeLines (l0 l1 l2 : Str) : Str :=
  l0 ++ [newlineCh] ++ l1 ++ [newlineCh] ++ l2 ++ [newlineCh]

/-- Auxiliary lemma: the header splits off its three lines in front of
any tail. -/
theorem splitOnNl_header (v : VehicleRec) (t tail : Str)
    (hv : newlineCh ∉ smsVehicleLine v) (ht : newlineCh ∉ t) :
    splitOnNl (smsHeader v t ++ tail) =
      str "EMERGENCY ALERT" :: smsVehicleLine v :: t :: splitOnNl tail := by
  have he : newlineCh ∉ str "EMERGENCY ALERT" := by decide
  have hshape : smsHeader v t ++ tail =
      str "EMERGENCY ALERT" ++ newlineCh ::
        (smsVehicleLine v ++ newlineCh :: (t ++ newlineCh :: tail)) := by
    simp [smsHeader, List.append_assoc]
  rw [hshape, splitOnNl_append _ _ he, splitOnNl_append _ _ hv, splitOnNl_append _ _ ht]

/-- Budget left for the optional lines after the three kept header
lines and the reserved footer. -/
def squeezeBudget (l0 l1 l2 : Str) : Int :=
  160 - (smsFooter.length : Int) - ((threeLines l0 l1 l2).length : Int)

/-- Clipped fourth line of the squeeze (empty when the line is absent
or empty). -/
def squeezePart3 (l0 l1 l2 : Str) (rest : List Str) : Str :=
  if truthyAt (l0 :: l1 :: l2 :: rest) 3 then
    clipTo ((rest.get? 0).getD []) (squeezeBudget l0 l1 l2)
  else []

/-- Budget left after the fourth line. -/
def squeezeRem1 (l0 l1 l2 : Str) (rest : List Str) : Int :=
  if truthyAt (l0 :: l1 :: l2 :: rest) 3 then
    squeezeBudget l0 l1 l2 - ((squeezePart3 l0 l1 l2 rest).length : Int)
  else squeezeBudget l0 l1 l2

/-- Clipped fifth line of the squeeze, appended only when more than 5
characters of budget remain. -/
def squeezePart4 (l0 l1 l2 : Str) (rest : List Str) : Str :=
  if truthyAt (l0 :: l1 :: l2 :: rest) 4 ∧ (5 : Int) < squeezeRem1 l0 l1 l2 rest then
    clipTo ((rest.get? 1).getD []) (squeezeRem1 l0 l1 l2 rest)
  else []

/-- Tail the squeeze step appends after the three kept header lines. -/
def squeezeTail (l0 l1 l2 : Str) (rest : List Str) : Str :=
  squeezePart3 l0 l1 l2 rest ++ squeezePart4 l0 l1 l2 rest

/-- Auxiliary lemma: on a message whose split has at least three lines,
the squeeze keeps those lines whole and appends the clipped tail. -/
theorem smsSqueeze_eq (msg l0 l1 l2 : Str) (rest : List Str)
    (hsplit : splitOnNl msg = l0 :: l1 :: l2 :: rest) :
    smsSqueeze msg = threeLines l0 l1 l2 ++ squeezeTail l0 l1 l2 rest := by
  unfold smsSqueeze squeezeTail squeezePart4 squeezeRem1 squeezePart3 squeezeBudget threeLines
  rw [hsplit]
  simp only [List.get?_cons_zero, List.get?_cons_succ, Option.getD_some, List.append_assoc]

/-- Auxiliary lemma: the clipped line fits its budget. -/
theorem clipTo_len_le (p : Str) (r : Int) (h3 : 3 ≤ r) :
    ((clipTo p r).length : Int) ≤ r := by
  unfold clipTo
  split_ifs with h
  · have hdots : (str "...").length = 3 := by decide
    rw [List.length_append, hdots, List.length_take]
    have h0 : ((r - 3).toNat : Int) = r - 3 := Int.toNat_of_nonneg (by omega)
    push_cast
    omega
  · omega

/-- Auxiliary lemma: when the kept header lines measure at most 143
characters, the squeezed message fits the 146-character budget reserved
above the footer. -/
theorem squeeze_len_le (l0 l1 l2 : Str) (rest : List Str)
    (h : (threeLines l0 l1 l2).length ≤ 143) :
    ((threeLines l0 l1 l2).length + (squeezeTail l0 l1 l2 rest).length) ≤ 146 := by
  have hfoot : (smsFooter.length : Int) = 14 := by decide
  have hb3 : (3 : Int) ≤ squeezeBudget l0 l1 l2 := by unfold squeezeBudget; omega
  have hp3 : ((squeezePart3 l0 l1 l2 rest).length : Int) ≤ squeezeBudget l0 l1 l2 := by
    unfold squeezePart3
    split_ifs with h3
    · exact clipTo_len_le _ _ hb3
    · simp only [List.length_nil]
      omega
  have hp4 : ((squeezePart4 l0 l1 l2 rest).length : Int)
      ≤ squeezeBudget l0 l1 l2 - ((squeezePart3 l0 l1 l2 rest).length : Int) := by
    unfold squeezePart4
    split_ifs with h4
    · have h5 := h4.2
      have hr3 : (3 : Int) ≤ squeezeRem1 l0 l1 l2 rest := by omega
      have hcl := clipTo_len_le ((rest.get? 1).getD []) _ hr3
      unfold squeezeRem1 at hcl ⊢
      split_ifs at hcl ⊢ with h3
      · exact hcl
      · have hz : (squeezePart3 l0 l1 l2 rest).length = 0 := by
          unfold squeezePart3
          rw [if_neg h3]
          rfl
        rw [hz]
        simpa using hcl
    · simp only [List.length_nil]
      omega
  unfold squeezeTail
  rw [List.length_append]
  unfold squeezeBudget at hp3 hp4
  omega

/-- Auxiliary lemma: the unsqueezed message always extends the header. -/
theorem smsUnsqueezed_decomp (v : VehicleRec) (coords : Option (Str × Str))
    (loc note : Option Str) (timeStr : Str) :
    ∃ tail, smsUnsqueezed v coords loc note timeStr = smsHeader v timeStr ++ tail :=
  ⟨smsLocPart coords loc ++ smsNotePart note, by
    simp only [smsUnsqueezed, List.append_assoc]⟩

/-- C3 amended: writing header for the three mandatory newline-terminated
lines (alert line, vehicle identity line, timestamp line), for every
report input whose vehicle identity line and timestamp contain no
newline: (1) the constructed body always starts with the header
unmodified; (2) whenever the header measures at most 143 characters —
which holds for all realistically-sized vehicle identity lines but can
fail within the schema's 50/100/50-character field caps — the body is at
most 160 characters; (3) whenever the message fits the budget without
the aggressive squeeze, the body is exactly message plus footer, parts
unmodified; and (4) with coordinates present the message always carries
the maps-link line directly after the header, so in the no-squeeze case
of (3) the maps link appears in the body unmodified. -/
theorem c3_amended_sms_budget (v : VehicleRec) (coords : Option (Str × Str))
    (loc note : Option Str) (timeStr : Str)
    (hvl : newlineCh ∉ smsVehicleLine v) (htime : newlineCh ∉ timeStr) :
    (∃ t, buildAlertSms v coords loc note timeStr = smsHeader v timeStr ++ t) ∧
    ((smsHeader v timeStr).length ≤ 143 →
      (buildAlertSms v coords loc note timeStr).length ≤ 160) ∧
    ((smsUnsqueezed v coords loc note timeStr).length ≤ 146 →
      buildAlertSms v coords loc note timeStr =
        smsUnsqueezed v coords loc note timeStr ++ smsFooter) ∧
    (∀ a b, coords = some (a, b) →
      ∃ t, smsUnsqueezed v coords loc note timeStr =
        smsHeader v timeStr ++ (smsMapsLink coords ++ ([newlineCh] ++ t))) := by
  have hfoot : smsFooter.length = 14 := by decide
  have hdr : smsHeader v timeStr =
      threeLines (str "EMERGENCY ALERT") (smsVehicleLine v) timeStr := rfl
  obtain ⟨tail, htail⟩ := smsUnsqueezed_decomp v coords loc note timeStr
  have hsplit : splitOnNl (smsUnsqueezed v coords loc note timeStr) =
      str "EMERGENCY ALERT" :: smsVehicleLine v :: timeStr :: splitOnNl tail := by
    rw [htail]
    exact splitOnNl_header v timeStr tail hvl htime
  have hsq := smsSqueeze_eq (smsUnsqueezed v coords loc note timeStr)
    (str "EMERGENCY ALERT") (smsVehicleLine v) timeStr (splitOnNl tail) hsplit
  refine ⟨?_, ?_, ?_, ?_⟩
  · unfold buildAlertSms
    split_ifs with hc
    · refine ⟨squeezeTail (str "EMERGENCY ALERT") (smsVehicleLine v) timeStr
        (splitOnNl tail) ++ smsFooter, ?_⟩
      rw [hsq, hdr, List.append_assoc]
    · refine ⟨tail ++ smsFooter, ?_⟩
      rw [htail, List.append_assoc]
  · intro h143
    unfold buildAlertSms
    split_ifs with hc
    · rw [List.length_append, hsq, List.length_append, hfoot]
      have hb := squeeze_len_le (str "EMERGENCY ALERT") (smsVehicleLine v) timeStr
        (splitOnNl tail) (by rw [← hdr]; exact h143)
      omega
    · rw [List.length_append, hfoot]
      rw [hfoot] at hc
      omega
  · intro h146
    unfold buildAlertSms
    rw [if_neg (by rw [hfoot]; omega)]
  · intro a b hab
    subst hab
    have hne : smsMapsLink (some (a, b)) ≠ [] := by
      show ('m' :: str "aps.google.com/?q=") ++ a ++ str "," ++ b ≠ []
      simp [List.cons_append]
    refine ⟨smsNotePart note, ?_⟩
    unfold smsUnsqueezed smsLocPart
    rw [if_pos hne]
    simp only [smsMapsLink, List.append_assoc]

/-- Helper note of 200 characters used in the witness. -/
def longHelperNote : Str :=
  str "The car has visible smoke coming from under the hood and the driver appears to be unconscious behind the wheel please send an ambulance and the fire brigade to the junction as quickly as you can thank"

/-- Witness for the amended C3 theorem: for a realistic vehicle, present
coordinates and a 200-character helper note, the header is 56 characters,
so the constructed body is at most 160 characters, and it starts with the
intact vehicle identity and timestamp header. -/
theorem c3_amended_sms_budget_witness :
    longHelperNote.length = 200 ∧
    (smsHeader vehicleTwoContacts timeStrEx).length = 56 ∧
    (buildAlertSms vehicleTwoContacts (some (str "12.97", str "77.59")) none
        (some longHelperNote) timeStrEx).length ≤ 160 ∧
    (∃ t, buildAlertSms vehicleTwoContacts (some (str "12.97", str "77.59")) none
        (some longHelperNote) timeStrEx = smsHeader vehicleTwoContacts timeStrEx ++ t) := by
  have h := c3_amended_sms_budget vehicleTwoContacts (some (str "12.97", str "77.59"))
    none (some longHelperNote) timeStrEx (by decide) (by decide)
  exact ⟨by decide, by decide, h.2.1 (by decide), h.1⟩

end AssistQR
